import Mathlib

/-!
Shallow embedding of `src/backend/mcp_server.py` (the MCP server for
Sovren AI) and proofs about its externally observable behaviour.

Python dictionaries are embedded as insertion-ordered association lists
(`List (String × α)`); `dict[k] = v` is `dinsert` (update in place when
the key exists, append otherwise) and `k in d` / `d[k]` is `dlookup`.
Heterogeneous JSON-like result values are embedded as the inductive
`JVal`.  Effects (checking that a path exists, spawning a subprocess,
resolving an installed package version, reading system or GPU metrics)
are embedded as explicit environment records passed to each operation;
an operation additionally returns the list of argument vectors of every
subprocess it spawned, so that "launches zero subprocesses" is a
statement about that trace.
-/

/-- Assignment `d[k] = v` on a Python dict embedded as an association
list: replace in place if `k` is present, append at the end otherwise. -/
def dinsert {α : Type} (k : String) (v : α) : List (String × α) → List (String × α)
  | [] => [(k, v)]
  | (k', v') :: rest => if k' = k then (k, v) :: rest else (k', v') :: dinsert k v rest

/-- Lookup `d[k]` on a Python dict embedded as an association list. -/
def dlookup {α : Type} (k : String) : List (String × α) → Option α
  | [] => none
  | (k', v) :: rest => if k' = k then some v else dlookup k rest

/-- JSON-like heterogeneous values appearing in the server's result
dictionaries (strings, integers, booleans, nested dicts, lists). -/
inductive JVal where
  | s (v : String)
  | i (v : Int)
  | b (v : Bool)
  | d (entries : List (String × JVal))
  | arr (elems : List JVal)

/-- Key list of a `JVal` dictionary (empty for non-dicts). -/
def JVal.keys : JVal → List String
  | .d entries => entries.map Prod.fst
  | _ => []

/-- Entry list of a `JVal` dictionary (empty for non-dicts). -/
def JVal.entriesOf : JVal → List (String × JVal)
  | .d entries => entries
  | _ => []

/-- The module-level `HAS_*` dependency flags of `mcp_server.py`,
established once at import time by the `try: import … except ImportError`
blocks (lines 35–269). -/
structure DepFlags where
  HAS_PSUTIL : Bool
  HAS_REQUESTS : Bool
  HAS_NUMPY : Bool
  HAS_GPUTIL : Bool
  HAS_QUANTUMRANDOM : Bool
  HAS_QISKIT : Bool
  HAS_MATPLOTLIB : Bool
  HAS_OPENCV : Bool
  HAS_TORCH : Bool
  HAS_TENSORFLOW : Bool
  HAS_PANDAS : Bool
  HAS_SCIPY : Bool
  HAS_SKLEARN : Bool
  HAS_JOBLIB : Bool
  HAS_PICKLE : Bool
  HAS_JSONLINES : Bool
  HAS_TOML : Bool
  HAS_YAML : Bool
  HAS_DISTUTILS : Bool
  HAS_VIRTUALENV : Bool
  HAS_CONDA : Bool
  HAS_POETRY : Bool
  HAS_PIPENV : Bool
  HAS_PIPDEPTREE : Bool
  HAS_SAFETY : Bool
  HAS_BANDIT : Bool
  HAS_PYLINT : Bool
  HAS_BLACK : Bool
  HAS_ISORT : Bool
  HAS_FLAKE8 : Bool
  HAS_PROFILING : Bool
  HAS_MEMORY_PROFILER : Bool
  HAS_LINE_PROFILER : Bool
deriving DecidableEq

/-- The `MCPCapabilities` dataclass (lines 399–412): a flat record of
capability booleans. -/
structure MCPCapabilities where
  gpu_monitoring : Bool
  quantum_random : Bool
  quantum_computing : Bool
  image_processing : Bool
  machine_learning : Bool
  deep_learning : Bool
  data_analysis : Bool
  visualization : Bool
  profiling : Bool
  code_quality : Bool
  package_management : Bool
deriving DecidableEq

/-- `MCPServer._detect_capabilities` (lines 425–439): fold the dependency
flags into the capability record by the fixed boolean table. -/
def MCPServer.detect_capabilities (f : DepFlags) : MCPCapabilities :=
  { gpu_monitoring := f.HAS_GPUTIL && f.HAS_PSUTIL
    quantum_random := f.HAS_QUANTUMRANDOM
    quantum_computing := f.HAS_QISKIT
    image_processing := f.HAS_OPENCV
    machine_learning := f.HAS_SKLEARN && f.HAS_NUMPY
    deep_learning := f.HAS_TORCH || f.HAS_TENSORFLOW
    data_analysis := f.HAS_PANDAS && f.HAS_NUMPY
    visualization := f.HAS_MATPLOTLIB
    profiling := f.HAS_PROFILING || f.HAS_MEMORY_PROFILER || f.HAS_LINE_PROFILER
    code_quality := f.HAS_PYLINT || f.HAS_BLACK || f.HAS_ISORT || f.HAS_FLAKE8
    package_management := f.HAS_POETRY || f.HAS_PIPENV || f.HAS_PIPDEPTREE }

/-- The server state set up by `MCPServer.__init__` (lines 418–423):
the capability snapshot, the session id and the start timestamp.  None
of the server's methods assigns to any of these attributes. -/
structure MCPServer where
  capabilities : MCPCapabilities
  session_id : String
  start_time : String
deriving DecidableEq

/-- `MCPServer.__init__` (lines 418–423): detect capabilities once and
record the session id and start timestamp. -/
def MCPServer.init (f : DepFlags) (sid : String) (start : String) : MCPServer :=
  { capabilities := MCPServer.detect_capabilities f
    session_id := sid
    start_time := start }

/-- C1: detect() is a pure deterministic function of the dependency flags
and equals the fixed boolean table: gpu_monitoring = GPUTIL AND PSUTIL,
quantum_random = QUANTUMRANDOM, quantum_computing = QISKIT,
image_processing = OPENCV, machine_learning = SKLEARN AND NUMPY,
deep_learning = TORCH OR TENSORFLOW, data_analysis = PANDAS AND NUMPY,
visualization = MATPLOTLIB, profiling = PROFILING OR MEMORY_PROFILER OR
LINE_PROFILER, code_quality = PYLINT OR BLACK OR ISORT OR FLAKE8,
package_management = POETRY OR PIPENV OR PIPDEPTREE; being a Lean
function of the flags, recomputing it from the same flags always yields
an identical `MCPCapabilities` record. -/
theorem detect_capabilities_table (f : DepFlags) :
    (MCPServer.detect_capabilities f).gpu_monitoring = (f.HAS_GPUTIL && f.HAS_PSUTIL) ∧
    (MCPServer.detect_capabilities f).quantum_random = f.HAS_QUANTUMRANDOM ∧
    (MCPServer.detect_capabilities f).quantum_computing = f.HAS_QISKIT ∧
    (MCPServer.detect_capabilities f).image_processing = f.HAS_OPENCV ∧
    (MCPServer.detect_capabilities f).machine_learning = (f.HAS_SKLEARN && f.HAS_NUMPY) ∧
    (MCPServer.detect_capabilities f).deep_learning = (f.HAS_TORCH || f.HAS_TENSORFLOW) ∧
    (MCPServer.detect_capabilities f).data_analysis = (f.HAS_PANDAS && f.HAS_NUMPY) ∧
    (MCPServer.detect_capabilities f).visualization = f.HAS_MATPLOTLIB ∧
    (MCPServer.detect_capabilities f).profiling
      = (f.HAS_PROFILING || f.HAS_MEMORY_PROFILER || f.HAS_LINE_PROFILER) ∧
    (MCPServer.detect_capabilities f).code_quality
      = (f.HAS_PYLINT || f.HAS_BLACK || f.HAS_ISORT || f.HAS_FLAKE8) ∧
    (MCPServer.detect_capabilities f).package_management
      = (f.HAS_POETRY || f.HAS_PIPENV || f.HAS_PIPDEPTREE) ∧
    ∀ g : DepFlags, g = f → MCPServer.detect_capabilities g = MCPServer.detect_capabilities f :=
  ⟨rfl, rfl, rfl, rfl, rfl, rfl, rfl, rfl, rfl, rfl, rfl, fun _ h => by rw [h]⟩

/-- Witness for `detect_capabilities_table` at the all-false flag record:
the determinism conjunct's hypothesis is discharged at a concrete flag
combination and the table is evaluated there. -/
theorem detect_capabilities_table_witness :
    MCPServer.detect_capabilities
        ⟨false, false, false, false, false, false, false, false, false, false, false,
         false, false, false, false, false, false, false, false, false, false, false,
         false, false, false, false, false, false, false, false, false, false, false⟩
      = MCPServer.detect_capabilities
        ⟨false, false, false, false, false, false, false, false, false, false, false,
         false, false, false, false, false, false, false, false, false, false, false,
         false, false, false, false, false, false, false, false, false, false, false⟩ :=
  (detect_capabilities_table
    ⟨false, false, false, false, false, false, false, false, false, false, false,
     false, false, false, false, false, false, false, false, false, false, false,
     false, false, false, false, false, false, false, false, false, false, false⟩).2.2.2.2.2.2.2.2.2.2.2
    _ rfl

/-- Result of an awaited subprocess: return code plus captured
stdout/stderr text (already decoded). -/
structure ProcResult where
  returncode : Int
  stdout : String
  stderr : String
deriving DecidableEq

/-- Environment of `install_missing_packages`: the interpreter path
`sys.executable`, the `importlib.metadata.version` lookup (`none` embeds
`PackageNotFoundError`) and the effect of spawning
`sys.executable -m pip install <package>` and awaiting it (`Except.error`
embeds an exception raised while launching or awaiting the child). -/
structure PkgEnv where
  pythonExe : String
  resolveVersion : String → Option String
  pipInstall : String → Except String ProcResult

/-- Argument vector of the pip-install subprocess spawned for one
package (line 570–574). -/
def pipCmd (env : PkgEnv) (package : String) : List String :=
  [env.pythonExe, "-m", "pip", "install", package]

/-- Outcome string recorded for one package by the loop body of
`install_missing_packages` (lines 560–587). -/
def installOutcome (env : PkgEnv) (package : String) : String :=
  match env.resolveVersion package with
  | some _ => "already_installed"
  | none =>
    match env.pipInstall package with
    | .ok r => if r.returncode = 0 then "installed" else "failed: " ++ r.stderr
    | .error e => "error: " ++ e

/-- One iteration of the `for package in packages` loop of
`install_missing_packages`: record the outcome in the results dict and,
when the already-installed check fell through, the spawned pip command
in the subprocess trace. -/
def installStep (env : PkgEnv) (acc : List (String × String) × List (List String))
    (package : String) : List (String × String) × List (List String) :=
  (dinsert package (installOutcome env package) acc.1,
   acc.2 ++ match env.resolveVersion package with
            | some _ => []
            | none => [pipCmd env package])

/-- `MCPServer.install_missing_packages` (lines 555–589), paired with
the trace of subprocess argument vectors it spawns. -/
def MCPServer.install_missing_packages (env : PkgEnv) (packages : List String) :
    List (String × String) × List (List String) :=
  packages.foldl (installStep env) ([], [])

theorem dlookup_dinsert_self {α : Type} (k : String) (v : α) (l : List (String × α)) :
    dlookup k (dinsert k v l) = some v := by
  induction l with
  | nil => simp [dinsert, dlookup]
  | cons hd tl ih =>
    by_cases h : hd.1 = k
    · simp [dinsert, dlookup, h]
    · simpa [dinsert, dlookup, h] using ih

theorem dlookup_dinsert_ne {α : Type} {k p : String} (h : k ≠ p) (v : α)
    (l : List (String × α)) : dlookup p (dinsert k v l) = dlookup p l := by
  induction l with
  | nil => simp [dinsert, dlookup, h]
  | cons hd tl ih =>
    by_cases h' : hd.1 = k
    · simp [dinsert, dlookup, h', h]
    · by_cases h2 : hd.1 = p
      · simp [dinsert, dlookup, h', h2, Ne.symm h]
      · simp [dinsert, dlookup, h', h2, ih]

theorem install_foldl_fst (env : PkgEnv) (ps : List String) :
    ∀ acc : List (String × String) × List (List String),
      (ps.foldl (installStep env) acc).1
        = ps.foldl (fun r package => dinsert package (installOutcome env package) r) acc.1 := by
  induction ps with
  | nil => intro acc; rfl
  | cons q rest ih => intro acc; simpa [List.foldl_cons, installStep] using ih (installStep env acc q)

theorem install_foldl_snd (env : PkgEnv) (ps : List String) :
    ∀ acc : List (String × String) × List (List String),
      (ps.foldl (installStep env) acc).2
        = acc.2 ++ (ps.filter fun q => (env.resolveVersion q).isNone).map (pipCmd env) := by
  induction ps with
  | nil => intro acc; simp
  | cons q rest ih =>
    intro acc
    rw [List.foldl_cons, ih (installStep env acc q)]
    cases h : env.resolveVersion q <;>
      simp [installStep, h, List.filter_cons]

theorem dlookup_results_foldl (env : PkgEnv) (p : String) (ps : List String) :
    ∀ r : List (String × String),
      dlookup p (ps.foldl (fun r package => dinsert package (installOutcome env package) r) r)
        = if p ∈ ps then some (installOutcome env p) else dlookup p r := by
  induction ps with
  | nil => intro r; simp
  | cons q rest ih =>
    intro r
    rw [List.foldl_cons, ih]
    by_cases hmem : p ∈ rest
    · simp [hmem, List.mem_cons]
    · by_cases hq : q = p
      · subst hq
        simp [hmem, dlookup_dinsert_self]
      · simp [hmem, hq, dlookup_dinsert_ne hq, List.mem_cons, Ne.symm hq]

theorem pipCmd_inj (env : PkgEnv) {p q : String} (h : pipCmd env p = pipCmd env q) : p = q := by
  simpa [pipCmd] using h

/-- C3: per requested package, a resolvable installed version yields
outcome "already_installed" with no pip subprocess spawned for that
name; otherwise the pip command for that name is spawned, and a zero
exit code yields "installed" while a nonzero exit code yields
"failed: <captured stderr>". -/
theorem install_per_package_outcome (env : PkgEnv) (ps : List String) (p : String)
    (hp : p ∈ ps) :
    ((env.resolveVersion p).isSome →
      dlookup p (MCPServer.install_missing_packages env ps).1 = some "already_installed" ∧
      pipCmd env p ∉ (MCPServer.install_missing_packages env ps).2) ∧
    (env.resolveVersion p = none →
      pipCmd env p ∈ (MCPServer.install_missing_packages env ps).2 ∧
      ∀ r : ProcResult, env.pipInstall p = .ok r →
        dlookup p (MCPServer.install_missing_packages env ps).1
          = some (if r.returncode = 0 then "installed" else "failed: " ++ r.stderr)) := by
  constructor
  · intro hsome
    obtain ⟨v, hv⟩ := Option.isSome_iff_exists.mp hsome
    constructor
    · rw [MCPServer.install_missing_packages, install_foldl_fst, dlookup_results_foldl]
      simp [hp, installOutcome, hv]
    · rw [MCPServer.install_missing_packages, install_foldl_snd]
      intro hmem
      simp only [List.nil_append, List.mem_map, List.mem_filter] at hmem
      obtain ⟨q, ⟨_, hqnone⟩, hqeq⟩ := hmem
      rw [pipCmd_inj env hqeq] at hqnone
      rw [hv] at hqnone
      simp at hqnone
  · intro hnone
    constructor
    · rw [MCPServer.install_missing_packages, install_foldl_snd]
      simp only [List.nil_append, List.mem_map]
      exact ⟨p, List.mem_filter.mpr ⟨hp, by simp [hnone]⟩, rfl⟩
    · intro r hr
      rw [MCPServer.install_missing_packages, install_foldl_fst, dlookup_results_foldl]
      simp [hp, installOutcome, hnone, hr]

/-- Witness for `install_per_package_outcome`: a concrete environment in
which "numpy" resolves as installed and "requests" does not, the pip
subprocess succeeding with exit code 0. -/
theorem install_per_package_outcome_witness :
    dlookup "numpy"
        (MCPServer.install_missing_packages
          ⟨"/usr/bin/python3", fun n => if n = "numpy" then some "1.0" else none,
            fun _ => .ok ⟨0, "", ""⟩⟩ ["numpy", "requests"]).1
      = some "already_installed" ∧
    dlookup "requests"
        (MCPServer.install_missing_packages
          ⟨"/usr/bin/python3", fun n => if n = "numpy" then some "1.0" else none,
            fun _ => .ok ⟨0, "", ""⟩⟩ ["numpy", "requests"]).1
      = some "installed" := by
  refine ⟨((install_per_package_outcome _ ["numpy", "requests"] "numpy" (by simp)).1 (by simp)).1, ?_⟩
  have h := ((install_per_package_outcome
    ⟨"/usr/bin/python3", fun n => if n = "numpy" then some "1.0" else none,
      fun _ => .ok ⟨0, "", ""⟩⟩ ["numpy", "requests"] "requests" (by simp)).2 (by simp)).2
    ⟨0, "", ""⟩ rfl
  simpa using h

/-- C7: installPackages never short-circuits: the empty request list
yields an empty result dict and spawn trace; every requested name
receives an outcome entry whatever the other packages do, and a failure
to launch the pip child for one name is recorded as
"error: <exception text>" for that name only. -/
theorem install_no_short_circuit (env : PkgEnv) :
    MCPServer.install_missing_packages env [] = ([], []) ∧
    ∀ ps : List String, ∀ p ∈ ps,
      (dlookup p (MCPServer.install_missing_packages env ps).1).isSome ∧
      ∀ e : String, env.resolveVersion p = none → env.pipInstall p = .error e →
        dlookup p (MCPServer.install_missing_packages env ps).1 = some ("error: " ++ e) := by
  refine ⟨rfl, fun ps p hp => ⟨?_, fun e hnone herr => ?_⟩⟩
  · rw [MCPServer.install_missing_packages, install_foldl_fst, dlookup_results_foldl]
    simp [hp]
  · rw [MCPServer.install_missing_packages, install_foldl_fst, dlookup_results_foldl]
    simp [hp, installOutcome, hnone, herr]

/-- Witness for `install_no_short_circuit`: the pip launch for "scipy"
raises while "toml" succeeds; both names still receive their own
outcome entries. -/
theorem install_no_short_circuit_witness :
    dlookup "scipy"
        (MCPServer.install_missing_packages
          ⟨"/usr/bin/python3", fun _ => none,
            fun n => if n = "scipy" then .error "boom" else .ok ⟨0, "", ""⟩⟩
          ["scipy", "toml"]).1
      = some ("error: " ++ "boom") ∧
    (dlookup "toml"
        (MCPServer.install_missing_packages
          ⟨"/usr/bin/python3", fun _ => none,
            fun n => if n = "scipy" then .error "boom" else .ok ⟨0, "", ""⟩⟩
          ["scipy", "toml"]).1).isSome := by
  constructor
  · exact ((install_no_short_circuit _).2 ["scipy", "toml"] "scipy" (by simp)).2 "boom" rfl rfl
  · exact ((install_no_short_circuit
      ⟨"/usr/bin/python3", fun _ => none,
        fun n => if n = "scipy" then .error "boom" else .ok ⟨0, "", ""⟩⟩).2
      ["scipy", "toml"] "toml" (by simp)).1

/-- Environment of the dispatch calls: `os.path.exists` and the effect
of spawning a tool subprocess with an argument vector and awaiting it
(`Except.error` embeds an exception raised in the `try` block). -/
structure ToolEnv where
  pathExists : String → Bool
  run : String → List String → Except String ProcResult

/-- Entry recorded for one tool by `run_code_quality_check` and
`format_code`: on success the `{exit_code, output, errors}` dict, on a
caught exception the inline `{"error": str(e)}` dict. -/
def toolEntry (res : Except String ProcResult) : JVal :=
  match res with
  | .ok r => .d [("exit_code", .i r.returncode), ("output", .s r.stdout), ("errors", .s r.stderr)]
  | .error e => .d [("error", .s e)]

/-- `MCPServer.run_code_quality_check` (lines 591–650), paired with the
trace of subprocess argument vectors it spawns.  The source initialises
`results = {"file": file_path, "checks": {}}`, returns early with an
added `"error"` entry when the path does not exist, and otherwise fills
`results["checks"]` with one entry per available tool (pylint, flake8,
bandit — sequential insertions of distinct keys). -/
def MCPServer.run_code_quality_check (f : DepFlags) (env : ToolEnv) (file_path : String) :
    JVal × List (List String) :=
  let results := [("file", JVal.s file_path), ("checks", JVal.d [])]
  if !env.pathExists file_path then
    (JVal.d (dinsert "error" (JVal.s "File not found") results), [])
  else
    let checks :=
      (if f.HAS_PYLINT then [("pylint", toolEntry (env.run "pylint" [file_path]))] else [])
      ++ (if f.HAS_FLAKE8 then [("flake8", toolEntry (env.run "flake8" [file_path]))] else [])
      ++ (if f.HAS_BANDIT then
            [("bandit", toolEntry (env.run "bandit" ["-f", "json", file_path]))]
          else [])
    let trace :=
      (if f.HAS_PYLINT then [["pylint", file_path]] else [])
      ++ (if f.HAS_FLAKE8 then [["flake8", file_path]] else [])
      ++ (if f.HAS_BANDIT then [["bandit", "-f", "json", file_path]] else [])
    (JVal.d (dinsert "checks" (JVal.d checks) results), trace)

/-- `MCPServer.format_code` (lines 652–694), paired with the trace of
subprocess argument vectors it spawns.  Same shape as
`run_code_quality_check` with `"formatters"` entries for black and
isort. -/
def MCPServer.format_code (f : DepFlags) (env : ToolEnv) (file_path : String) :
    JVal × List (List String) :=
  let results := [("file", JVal.s file_path), ("formatters", JVal.d [])]
  if !env.pathExists file_path then
    (JVal.d (dinsert "error" (JVal.s "File not found") results), [])
  else
    let formatters :=
      (if f.HAS_BLACK then
         [("black", toolEntry (env.run "black" ["--check", "--diff", file_path]))]
       else [])
      ++ (if f.HAS_ISORT then
            [("isort", toolEntry (env.run "isort" ["--check-only", "--diff", file_path]))]
          else [])
    let trace :=
      (if f.HAS_BLACK then [["black", "--check", "--diff", file_path]] else [])
      ++ (if f.HAS_ISORT then [["isort", "--check-only", "--diff", file_path]] else [])
    (JVal.d (dinsert "formatters" (JVal.d formatters) results), trace)

/-- Entries of the nested dict stored under key `k` of a `JVal` dict
(empty when absent or not a dict). -/
def JVal.subdict (k : String) (r : JVal) : List (String × JVal) :=
  match dlookup k r.entriesOf with
  | some (.d l) => l
  | _ => []

theorem checks_subdict (f : DepFlags) (env : ToolEnv) (p : String)
    (hp : env.pathExists p = true) :
    JVal.subdict "checks" (MCPServer.run_code_quality_check f env p).1
      = (if f.HAS_PYLINT then [("pylint", toolEntry (env.run "pylint" [p]))] else [])
        ++ (if f.HAS_FLAKE8 then [("flake8", toolEntry (env.run "flake8" [p]))] else [])
        ++ (if f.HAS_BANDIT then
              [("bandit", toolEntry (env.run "bandit" ["-f", "json", p]))]
            else []) := by
  simp [MCPServer.run_code_quality_check, hp, JVal.subdict, JVal.entriesOf, dinsert, dlookup]

theorem checks_subdict_missing (f : DepFlags) (env : ToolEnv) (p : String)
    (hp : env.pathExists p = false) :
    JVal.subdict "checks" (MCPServer.run_code_quality_check f env p).1 = [] := by
  simp [MCPServer.run_code_quality_check, hp, JVal.subdict, JVal.entriesOf, dinsert, dlookup]

theorem formatters_subdict (f : DepFlags) (env : ToolEnv) (p : String)
    (hp : env.pathExists p = true) :
    JVal.subdict "formatters" (MCPServer.format_code f env p).1
      = (if f.HAS_BLACK then
           [("black", toolEntry (env.run "black" ["--check", "--diff", p]))]
         else [])
        ++ (if f.HAS_ISORT then
              [("isort", toolEntry (env.run "isort" ["--check-only", "--diff", p]))]
            else []) := by
  simp [MCPServer.format_code, hp, JVal.subdict, JVal.entriesOf, dinsert, dlookup]

theorem formatters_subdict_missing (f : DepFlags) (env : ToolEnv) (p : String)
    (hp : env.pathExists p = false) :
    JVal.subdict "formatters" (MCPServer.format_code f env p).1 = [] := by
  simp [MCPServer.format_code, hp, JVal.subdict, JVal.entriesOf, dinsert, dlookup]

/-- C2 counterexample: with every dependency flag set and a path that
does not exist, `run_code_quality_check` does not return exactly the
two-entry dict `{"file": path, "error": "File not found"}`: the result
additionally carries the `"checks"` key (holding an empty dict), and
its subprocess trace is empty. -/
theorem run_code_quality_check_missing_exact_counterexample :
    (MCPServer.run_code_quality_check
        ⟨true, true, true, true, true, true, true, true, true, true, true,
         true, true, true, true, true, true, true, true, true, true, true,
         true, true, true, true, true, true, true, true, true, true, true⟩
        ⟨fun _ => false, fun _ _ => .ok ⟨0, "", ""⟩⟩ "missing.py").1
      ≠ JVal.d [("file", JVal.s "missing.py"), ("error", JVal.s "File not found")] ∧
    (MCPServer.run_code_quality_check
        ⟨true, true, true, true, true, true, true, true, true, true, true,
         true, true, true, true, true, true, true, true, true, true, true,
         true, true, true, true, true, true, true, true, true, true, true⟩
        ⟨fun _ => false, fun _ _ => .ok ⟨0, "", ""⟩⟩ "missing.py").1.keys
      = ["file", "checks", "error"] ∧
    (MCPServer.run_code_quality_check
        ⟨true, true, true, true, true, true, true, true, true, true, true,
         true, true, true, true, true, true, true, true, true, true, true,
         true, true, true, true, true, true, true, true, true, true, true⟩
        ⟨fun _ => false, fun _ _ => .ok ⟨0, "", ""⟩⟩ "missing.py").2 = [] := by
  refine ⟨?_, rfl, rfl⟩
  intro h
  have hk := congrArg JVal.keys h
  have h1 : (MCPServer.run_code_quality_check
      ⟨true, true, true, true, true, true, true, true, true, true, true,
       true, true, true, true, true, true, true, true, true, true, true,
       true, true, true, true, true, true, true, true, true, true, true⟩
      ⟨fun _ => false, fun _ _ => .ok ⟨0, "", ""⟩⟩ "missing.py").1.keys
      = ["file", "checks", "error"] := rfl
  rw [h1] at hk
  simp [JVal.keys] at hk

/-- C2 (amended): for every path that does not exist and every
dependency-flag combination, `run_code_quality_check` returns exactly
the mapping `{"file": path, "checks": {}, "error": "File not found"}`
and launches zero subprocesses. -/
theorem run_code_quality_check_missing_file (f : DepFlags) (env : ToolEnv) (p : String)
    (h : env.pathExists p = false) :
    MCPServer.run_code_quality_check f env p
      = (JVal.d [("file", JVal.s p), ("checks", JVal.d []),
                 ("error", JVal.s "File not found")], []) := by
  simp [MCPServer.run_code_quality_check, h, dinsert]

/-- Witness for `run_code_quality_check_missing_file` at an environment
in which no path exists. -/
theorem run_code_quality_check_missing_file_witness :
    MCPServer.run_code_quality_check
        ⟨true, true, true, true, true, true, true, true, true, true, true,
         true, true, true, true, true, true, true, true, true, true, true,
         true, true, true, true, true, true, true, true, true, true, true⟩
        ⟨fun _ => false, fun _ _ => .ok ⟨0, "", ""⟩⟩ "absent.py"
      = (JVal.d [("file", JVal.s "absent.py"), ("checks", JVal.d []),
                 ("error", JVal.s "File not found")], []) :=
  run_code_quality_check_missing_file _ _ "absent.py" rfl

/-- C10: every `run_code_quality_check` result carries a "file" entry
equal to the input path and a "checks" dict, every `format_code` result
carries "file" and a "formatters" dict; for a nonexistent path the
empty "checks" (resp. "formatters") dict is present alongside the
"error": "File not found" entry. -/
theorem dispatch_result_structure (f : DepFlags) (env : ToolEnv) (p : String) :
    dlookup "file" (MCPServer.run_code_quality_check f env p).1.entriesOf
      = some (JVal.s p) ∧
    (∃ c, dlookup "checks" (MCPServer.run_code_quality_check f env p).1.entriesOf
      = some (JVal.d c)) ∧
    dlookup "file" (MCPServer.format_code f env p).1.entriesOf = some (JVal.s p) ∧
    (∃ fm, dlookup "formatters" (MCPServer.format_code f env p).1.entriesOf
      = some (JVal.d fm)) ∧
    (env.pathExists p = false →
      dlookup "checks" (MCPServer.run_code_quality_check f env p).1.entriesOf
        = some (JVal.d []) ∧
      dlookup "error" (MCPServer.run_code_quality_check f env p).1.entriesOf
        = some (JVal.s "File not found") ∧
      dlookup "formatters" (MCPServer.format_code f env p).1.entriesOf
        = some (JVal.d []) ∧
      dlookup "error" (MCPServer.format_code f env p).1.entriesOf
        = some (JVal.s "File not found")) := by
  cases hp : env.pathExists p <;>
    simp [MCPServer.run_code_quality_check, MCPServer.format_code, hp,
      dinsert, dlookup, JVal.entriesOf]

/-- Witness for `dispatch_result_structure`: the nonexistent-path
implication evaluated at a concrete environment in which no path
exists. -/
theorem dispatch_result_structure_witness :
    dlookup "checks"
        (MCPServer.run_code_quality_check
          ⟨false, false, false, false, false, false, false, false, false, false, false,
           false, false, false, false, false, false, false, false, false, false, false,
           false, false, false, false, false, false, false, false, false, false, false⟩
          ⟨fun _ => false, fun _ _ => .ok ⟨0, "", ""⟩⟩ "gone.py").1.entriesOf
      = some (JVal.d []) ∧
    dlookup "error"
        (MCPServer.format_code
          ⟨false, false, false, false, false, false, false, false, false, false, false,
           false, false, false, false, false, false, false, false, false, false, false,
           false, false, false, false, false, false, false, false, false, false, false⟩
          ⟨fun _ => false, fun _ _ => .ok ⟨0, "", ""⟩⟩ "gone.py").1.entriesOf
      = some (JVal.s "File not found") := by
  have h := (dispatch_result_structure
    ⟨false, false, false, false, false, false, false, false, false, false, false,
     false, false, false, false, false, false, false, false, false, false, false,
     false, false, false, false, false, false, false, false, false, false, false⟩
    ⟨fun _ => false, fun _ _ => .ok ⟨0, "", ""⟩⟩ "gone.py").2.2.2.2 rfl
  exact ⟨h.1, h.2.2.2⟩

/-- C5: a tool whose dependency flag is false contributes no key to the
result mapping of the dispatch calls: the "checks" dict of
`run_code_quality_check` has no entry for pylint, flake8 or bandit when
the respective flag is false, and the "formatters" dict of
`format_code` has no entry for black or isort when the respective flag
is false; absent tools are not listed as skipped entries. -/
theorem absent_tool_absent_key (f : DepFlags) (env : ToolEnv) (p : String) :
    (f.HAS_PYLINT = false →
      "pylint" ∉ (JVal.subdict "checks"
        (MCPServer.run_code_quality_check f env p).1).map Prod.fst) ∧
    (f.HAS_FLAKE8 = false →
      "flake8" ∉ (JVal.subdict "checks"
        (MCPServer.run_code_quality_check f env p).1).map Prod.fst) ∧
    (f.HAS_BANDIT = false →
      "bandit" ∉ (JVal.subdict "checks"
        (MCPServer.run_code_quality_check f env p).1).map Prod.fst) ∧
    (f.HAS_BLACK = false →
      "black" ∉ (JVal.subdict "formatters"
        (MCPServer.format_code f env p).1).map Prod.fst) ∧
    (f.HAS_ISORT = false →
      "isort" ∉ (JVal.subdict "formatters"
        (MCPServer.format_code f env p).1).map Prod.fst) := by
  cases hp : env.pathExists p
  · simp [checks_subdict_missing f env p hp, formatters_subdict_missing f env p hp]
  · refine ⟨?_, ?_, ?_, ?_, ?_⟩ <;> intro h
    · rw [checks_subdict f env p hp]
      cases hfl : f.HAS_FLAKE8 <;> cases hba : f.HAS_BANDIT <;> simp [h, hfl, hba]
    · rw [checks_subdict f env p hp]
      cases hpy : f.HAS_PYLINT <;> cases hba : f.HAS_BANDIT <;> simp [h, hpy, hba]
    · rw [checks_subdict f env p hp]
      cases hpy : f.HAS_PYLINT <;> cases hfl : f.HAS_FLAKE8 <;> simp [h, hpy, hfl]
    · rw [formatters_subdict f env p hp]
      cases hi : f.HAS_ISORT <;> simp [h, hi]
    · rw [formatters_subdict f env p hp]
      cases hb : f.HAS_BLACK <;> simp [h, hb]

/-- Witness for `absent_tool_absent_key`: flags with flake8 and isort
absent, a path that exists, every spawn succeeding. -/
theorem absent_tool_absent_key_witness :
    "flake8" ∉ (JVal.subdict "checks"
        (MCPServer.run_code_quality_check
          ⟨true, true, true, true, true, true, true, true, true, true, true,
           true, true, true, true, true, true, true, true, true, true, true,
           true, true, true, true, true, true, false, false, true, true, true⟩
          ⟨fun _ => true, fun _ _ => .ok ⟨0, "", ""⟩⟩ "ok.py").1).map Prod.fst ∧
    "isort" ∉ (JVal.subdict "formatters"
        (MCPServer.format_code
          ⟨true, true, true, true, true, true, true, true, true, true, true,
           true, true, true, true, true, true, true, true, true, true, true,
           true, true, true, true, true, true, false, false, true, true, true⟩
          ⟨fun _ => true, fun _ _ => .ok ⟨0, "", ""⟩⟩ "ok.py").1).map Prod.fst := by
  have h := absent_tool_absent_key
    ⟨true, true, true, true, true, true, true, true, true, true, true,
     true, true, true, true, true, true, true, true, true, true, true,
     true, true, true, true, true, true, false, false, true, true, true⟩
    ⟨fun _ => true, fun _ _ => .ok ⟨0, "", ""⟩⟩ "ok.py"
  exact ⟨h.2.1 rfl, h.2.2.2.2 rfl⟩

/-- C8: with an existing path, each enabled tool's entry in the
"checks" (resp. "formatters") dict is exactly the entry computed from
that tool's own subprocess result — independent of every other tool's
outcome — and a caught launch failure is recorded inline as
`{"error": str(e)}` under that tool's key only; no per-tool failure
escapes the dispatch call. -/
theorem tool_failure_isolated (f : DepFlags) (env : ToolEnv) (p : String)
    (hp : env.pathExists p = true) :
    (f.HAS_PYLINT = true →
      dlookup "pylint" (JVal.subdict "checks" (MCPServer.run_code_quality_check f env p).1)
        = some (toolEntry (env.run "pylint" [p]))) ∧
    (f.HAS_FLAKE8 = true →
      dlookup "flake8" (JVal.subdict "checks" (MCPServer.run_code_quality_check f env p).1)
        = some (toolEntry (env.run "flake8" [p]))) ∧
    (f.HAS_BANDIT = true →
      dlookup "bandit" (JVal.subdict "checks" (MCPServer.run_code_quality_check f env p).1)
        = some (toolEntry (env.run "bandit" ["-f", "json", p]))) ∧
    (f.HAS_BLACK = true →
      dlookup "black" (JVal.subdict "formatters" (MCPServer.format_code f env p).1)
        = some (toolEntry (env.run "black" ["--check", "--diff", p]))) ∧
    (f.HAS_ISORT = true →
      dlookup "isort" (JVal.subdict "formatters" (MCPServer.format_code f env p).1)
        = some (toolEntry (env.run "isort" ["--check-only", "--diff", p]))) ∧
    (∀ e : String, toolEntry (.error e) = JVal.d [("error", JVal.s e)]) := by
  refine ⟨?_, ?_, ?_, ?_, ?_, fun e => rfl⟩ <;> intro h
  · rw [checks_subdict f env p hp]
    simp [h, dlookup]
  · rw [checks_subdict f env p hp]
    cases hpy : f.HAS_PYLINT <;> simp [h, hpy, dlookup]
  · rw [checks_subdict f env p hp]
    cases hpy : f.HAS_PYLINT <;> cases hfl : f.HAS_FLAKE8 <;> simp [h, hpy, hfl, dlookup]
  · rw [formatters_subdict f env p hp]
    simp [h, dlookup]
  · rw [formatters_subdict f env p hp]
    cases hb : f.HAS_BLACK <;> simp [h, hb, dlookup]

/-- Witness for `tool_failure_isolated`: the pylint spawn raises while
flake8 succeeds; pylint's entry is the inline error dict and flake8's
entry is still its own result. -/
theorem tool_failure_isolated_witness :
    dlookup "pylint" (JVal.subdict "checks"
        (MCPServer.run_code_quality_check
          ⟨true, true, true, true, true, true, true, true, true, true, true,
           true, true, true, true, true, true, true, true, true, true, true,
           true, true, true, true, true, true, true, true, true, true, true⟩
          ⟨fun _ => true,
           fun prog _ => if prog = "pylint" then .error "spawn failed" else .ok ⟨0, "", ""⟩⟩
          "ok.py").1)
      = some (JVal.d [("error", JVal.s "spawn failed")]) ∧
    dlookup "flake8" (JVal.subdict "checks"
        (MCPServer.run_code_quality_check
          ⟨true, true, true, true, true, true, true, true, true, true, true,
           true, true, true, true, true, true, true, true, true, true, true,
           true, true, true, true, true, true, true, true, true, true, true⟩
          ⟨fun _ => true,
           fun prog _ => if prog = "pylint" then .error "spawn failed" else .ok ⟨0, "", ""⟩⟩
          "ok.py").1)
      = some (JVal.d [("exit_code", JVal.i 0), ("output", JVal.s ""), ("errors", JVal.s "")]) := by
  have h := tool_failure_isolated
    ⟨true, true, true, true, true, true, true, true, true, true, true,
     true, true, true, true, true, true, true, true, true, true, true,
     true, true, true, true, true, true, true, true, true, true, true⟩
    ⟨fun _ => true,
     fun prog _ => if prog = "pylint" then .error "spawn failed" else .ok ⟨0, "", ""⟩⟩
    "ok.py" rfl
  exact ⟨h.1 rfl, h.2.1 rfl⟩

/-- The five psutil readings assembled into `info["system_resources"]`
(lines 525–531); each value is kept opaque. -/
structure SysReads where
  cpu_percent : JVal
  memory_percent : JVal
  disk_usage : JVal
  cpu_count : JVal
  memory_total_gb : JVal

/-- One GPU record returned by `GPUtil.getGPUs()` (lines 538–549); each
attribute is kept opaque. -/
structure GPUInfo where
  id : JVal
  name : JVal
  memoryUsed : JVal
  memoryTotal : JVal
  temperature : JVal
  load : JVal

/-- Environment of `get_system_info`: the platform and interpreter
version strings, the `importlib.metadata.version` lookup (`none` embeds
`PackageNotFoundError`), the psutil block (`none` embeds any exception
raised while reading system resources, line 532) and the GPUtil block
(`none` embeds any exception raised while enumerating GPUs, line 550). -/
structure SysEnv where
  platformString : String
  python_version : String
  resolveVersion : String → Option String
  systemResources : Option SysReads
  getGPUs : Option (List GPUInfo)

/-- The `packages_to_check` list of `get_system_info` (lines 481–513):
metadata name paired with its availability flag. -/
def packages_to_check (f : DepFlags) : List (String × Bool) :=
  [("psutil", f.HAS_PSUTIL), ("requests", f.HAS_REQUESTS), ("numpy", f.HAS_NUMPY),
   ("GPUtil", f.HAS_GPUTIL), ("quantumrandom", f.HAS_QUANTUMRANDOM),
   ("qiskit", f.HAS_QISKIT), ("matplotlib", f.HAS_MATPLOTLIB),
   ("opencv-python", f.HAS_OPENCV), ("torch", f.HAS_TORCH),
   ("tensorflow", f.HAS_TENSORFLOW), ("pandas", f.HAS_PANDAS), ("scipy", f.HAS_SCIPY),
   ("scikit-learn", f.HAS_SKLEARN), ("joblib", f.HAS_JOBLIB),
   ("jsonlines", f.HAS_JSONLINES), ("toml", f.HAS_TOML), ("PyYAML", f.HAS_YAML),
   ("virtualenv", f.HAS_VIRTUALENV), ("conda", f.HAS_CONDA), ("poetry", f.HAS_POETRY),
   ("pipenv", f.HAS_PIPENV), ("pipdeptree", f.HAS_PIPDEPTREE), ("safety", f.HAS_SAFETY),
   ("bandit", f.HAS_BANDIT), ("pylint", f.HAS_PYLINT), ("black", f.HAS_BLACK),
   ("isort", f.HAS_ISORT), ("flake8", f.HAS_FLAKE8), ("profiling", f.HAS_PROFILING),
   ("memory-profiler", f.HAS_MEMORY_PROFILER), ("line-profiler", f.HAS_LINE_PROFILER)]

/-- Version string recorded for one available package (lines 517–520):
the resolved version, or "unknown" on `PackageNotFoundError`. -/
def pkgVersionStr (env : SysEnv) (package_name : String) : String :=
  match env.resolveVersion package_name with
  | some v => v
  | none => "unknown"

/-- The `info["installed_packages"]` dict built by the loop at
lines 515–520: one entry per available package. -/
def installedPackages (f : DepFlags) (env : SysEnv) : List (String × JVal) :=
  (packages_to_check f).foldl
    (fun acc pkg =>
      if pkg.2 then dinsert pkg.1 (JVal.s (pkgVersionStr env pkg.1)) acc else acc) []

/-- The `capabilities.__dict__` entry of `get_system_info` (line 476). -/
def capsDict (c : MCPCapabilities) : JVal :=
  .d [("gpu_monitoring", .b c.gpu_monitoring), ("quantum_random", .b c.quantum_random),
      ("quantum_computing", .b c.quantum_computing),
      ("image_processing", .b c.image_processing),
      ("machine_learning", .b c.machine_learning), ("deep_learning", .b c.deep_learning),
      ("data_analysis", .b c.data_analysis), ("visualization", .b c.visualization),
      ("profiling", .b c.profiling), ("code_quality", .b c.code_quality),
      ("package_management", .b c.package_management)]

/-- The `info["system_resources"]` dict (lines 525–531). -/
def sysResourcesDict (r : SysReads) : JVal :=
  .d [("cpu_percent", r.cpu_percent), ("memory_percent", r.memory_percent),
      ("disk_usage", r.disk_usage), ("cpu_count", r.cpu_count),
      ("memory_total_gb", r.memory_total_gb)]

/-- One entry of the `info["gpus"]` list (lines 540–547). -/
def gpuDict (g : GPUInfo) : JVal :=
  .d [("id", g.id), ("name", g.name), ("memory_used", g.memoryUsed),
      ("memory_total", g.memoryTotal), ("temperature", g.temperature),
      ("load", g.load)]

/-- `MCPServer.get_system_info` (lines 469–553): the base info dict,
the per-package version entries, then the psutil and GPUtil sections,
each added only when its flag is set and its reads do not raise. -/
def MCPServer.get_system_info (s : MCPServer) (f : DepFlags) (env : SysEnv) : JVal :=
  let info := [("session_id", JVal.s s.session_id),
               ("start_time", JVal.s s.start_time),
               ("platform", JVal.s env.platformString),
               ("python_version", JVal.s env.python_version),
               ("capabilities", capsDict s.capabilities),
               ("installed_packages", JVal.d (installedPackages f env))]
  let info := if f.HAS_PSUTIL then
      match env.systemResources with
      | some r => dinsert "system_resources" (sysResourcesDict r) info
      | none => info
    else info
  let info := if f.HAS_GPUTIL then
      match env.getGPUs with
      | some gpus => dinsert "gpus" (JVal.arr (gpus.map gpuDict)) info
      | none => info
    else info
  JVal.d info

theorem dlookup_installedPackages_foldl (env : SysEnv) (p : String)
    (l : List (String × Bool)) :
    ∀ acc : List (String × JVal),
      dlookup p (l.foldl
          (fun acc pkg =>
            if pkg.2 then dinsert pkg.1 (JVal.s (pkgVersionStr env pkg.1)) acc else acc) acc)
        = if l.any (fun pkg => decide (pkg.1 = p) && pkg.2) then
            some (JVal.s (pkgVersionStr env p))
          else dlookup p acc := by
  induction l with
  | nil => intro acc; simp
  | cons hd tl ih =>
    intro acc
    rw [List.foldl_cons, ih]
    by_cases htl : tl.any (fun pkg => decide (pkg.1 = p) && pkg.2) = true
    · simp [htl, List.any_cons]
    · simp only [eq_iff_iff, iff_false] at htl
      by_cases hav : hd.2 = true
      · by_cases hk : hd.1 = p
        · rw [hk]
          simp [htl, hav, hk, List.any_cons, dlookup_dinsert_self]
        · simp [htl, hav, hk, List.any_cons, dlookup_dinsert_ne hk]
      · simp only [Bool.not_eq_true] at hav
        simp [htl, hav, List.any_cons]

/-- C4: getSystemInfo never fails and degrades per section: the base
entries (session id, start time, platform, interpreter version,
capability snapshot, installed-package dict) are always present in the
returned info; when the psutil flag is false or the system-resource
reads raise, the "system_resources" section is simply absent; when the
GPUtil flag is false or GPU enumeration raises, the "gpus" section is
simply absent; and every package flagged present whose version
resolution fails is recorded as the literal string "unknown" instead of
the call failing. -/
theorem get_system_info_degrades (s : MCPServer) (f : DepFlags) (env : SysEnv) :
    dlookup "session_id" (s.get_system_info f env).entriesOf = some (JVal.s s.session_id) ∧
    dlookup "start_time" (s.get_system_info f env).entriesOf = some (JVal.s s.start_time) ∧
    dlookup "platform" (s.get_system_info f env).entriesOf
      = some (JVal.s env.platformString) ∧
    dlookup "python_version" (s.get_system_info f env).entriesOf
      = some (JVal.s env.python_version) ∧
    dlookup "capabilities" (s.get_system_info f env).entriesOf
      = some (capsDict s.capabilities) ∧
    dlookup "installed_packages" (s.get_system_info f env).entriesOf
      = some (JVal.d (installedPackages f env)) ∧
    ((f.HAS_PSUTIL = false ∨ env.systemResources = none) →
      dlookup "system_resources" (s.get_system_info f env).entriesOf = none) ∧
    ((f.HAS_GPUTIL = false ∨ env.getGPUs = none) →
      dlookup "gpus" (s.get_system_info f env).entriesOf = none) ∧
    (∀ pkg ∈ packages_to_check f, pkg.2 = true → env.resolveVersion pkg.1 = none →
      dlookup pkg.1 (installedPackages f env) = some (JVal.s "unknown")) := by
  have hpkg : ∀ pkg ∈ packages_to_check f, pkg.2 = true →
      env.resolveVersion pkg.1 = none →
      dlookup pkg.1 (installedPackages f env) = some (JVal.s "unknown") := by
    intro pkg hmem h2 hnone
    rw [installedPackages, dlookup_installedPackages_foldl]
    have hany : (packages_to_check f).any
        (fun q => decide (q.1 = pkg.1) && q.2) = true :=
      List.any_eq_true.mpr ⟨pkg, hmem, by simp [h2]⟩
    simp [hany, pkgVersionStr, hnone]
  refine ⟨?_, ?_, ?_, ?_, ?_, ?_, ?_, ?_, hpkg⟩ <;>
    cases hps : f.HAS_PSUTIL <;> cases hg : f.HAS_GPUTIL <;>
      cases hsr : env.systemResources <;> cases hgpu : env.getGPUs <;>
        simp [MCPServer.get_system_info, JVal.entriesOf, dinsert, dlookup,
          hps, hg, hsr, hgpu]

/-- Witness for `get_system_info_degrades`: an environment in which
every metrics read raises and no version resolves; the optional
sections are absent and an available package records "unknown". -/
theorem get_system_info_degrades_witness :
    dlookup "system_resources"
        ((MCPServer.init
            ⟨true, true, true, true, true, true, true, true, true, true, true,
             true, true, true, true, true, true, true, true, true, true, true,
             true, true, true, true, true, true, true, true, true, true, true⟩
            "sid" "t0").get_system_info
          ⟨true, true, true, true, true, true, true, true, true, true, true,
           true, true, true, true, true, true, true, true, true, true, true,
           true, true, true, true, true, true, true, true, true, true, true⟩
          ⟨"linux", "3.11", fun _ => none, none, none⟩).entriesOf = none ∧
    dlookup "gpus"
        ((MCPServer.init
            ⟨true, true, true, true, true, true, true, true, true, true, true,
             true, true, true, true, true, true, true, true, true, true, true,
             true, true, true, true, true, true, true, true, true, true, true⟩
            "sid" "t0").get_system_info
          ⟨true, true, true, true, true, true, true, true, true, true, true,
           true, true, true, true, true, true, true, true, true, true, true,
           true, true, true, true, true, true, true, true, true, true, true⟩
          ⟨"linux", "3.11", fun _ => none, none, none⟩).entriesOf = none ∧
    dlookup "numpy"
        (installedPackages
          ⟨true, true, true, true, true, true, true, true, true, true, true,
           true, true, true, true, true, true, true, true, true, true, true,
           true, true, true, true, true, true, true, true, true, true, true⟩
          ⟨"linux", "3.11", fun _ => none, none, none⟩) = some (JVal.s "unknown") := by
  have h := get_system_info_degrades
    (MCPServer.init
      ⟨true, true, true, true, true, true, true, true, true, true, true,
       true, true, true, true, true, true, true, true, true, true, true,
       true, true, true, true, true, true, true, true, true, true, true⟩
      "sid" "t0")
    ⟨true, true, true, true, true, true, true, true, true, true, true,
     true, true, true, true, true, true, true, true, true, true, true,
     true, true, true, true, true, true, true, true, true, true, true⟩
    ⟨"linux", "3.11", fun _ => none, none, none⟩
  exact ⟨h.2.2.2.2.2.2.1 (Or.inr rfl), h.2.2.2.2.2.2.2.1 (Or.inr rfl),
    h.2.2.2.2.2.2.2.2 ("numpy", true) (by simp [packages_to_check]) rfl rfl⟩

/-- `MCPServer.get_missing_packages_recommendations` (lines 696–733):
for each capability that is false, record its fixed suggestion list
under the category name.  Reads only the capability record. -/
def MCPServer.get_missing_packages_recommendations (caps : MCPCapabilities) :
    List (String × List String) :=
  let recommendations : List (String × List String) := []
  let recommendations := if !caps.gpu_monitoring then
      dinsert "GPU Monitoring" ["GPUtil", "psutil"] recommendations else recommendations
  let recommendations := if !caps.quantum_random then
      dinsert "Quantum Random" ["quantumrandom"] recommendations else recommendations
  let recommendations := if !caps.quantum_computing then
      dinsert "Quantum Computing" ["qiskit", "qiskit-aer"] recommendations
    else recommendations
  let recommendations := if !caps.image_processing then
      dinsert "Image Processing" ["opencv-python", "Pillow"] recommendations
    else recommendations
  let recommendations := if !caps.machine_learning then
      dinsert "Machine Learning" ["scikit-learn", "numpy", "pandas"] recommendations
    else recommendations
  let recommendations := if !caps.deep_learning then
      dinsert "Deep Learning" ["torch", "tensorflow"] recommendations else recommendations
  let recommendations := if !caps.data_analysis then
      dinsert "Data Analysis" ["pandas", "numpy", "scipy"] recommendations
    else recommendations
  let recommendations := if !caps.visualization then
      dinsert "Visualization" ["matplotlib", "seaborn", "plotly"] recommendations
    else recommendations
  let recommendations := if !caps.profiling then
      dinsert "Profiling" ["memory-profiler", "line-profiler", "py-spy"] recommendations
    else recommendations
  let recommendations := if !caps.code_quality then
      dinsert "Code Quality" ["pylint", "black", "isort", "flake8", "bandit"] recommendations
    else recommendations
  let recommendations := if !caps.package_management then
      dinsert "Package Management" ["poetry", "pipenv", "pipdeptree"] recommendations
    else recommendations
  recommendations

theorem dlookup_cond_insert_self {α : Type} (k : String) (c : Prop) [Decidable c] (v : α)
    (r : List (String × α)) :
    dlookup k (if c then dinsert k v r else r) = if c then some v else dlookup k r := by
  split
  · exact dlookup_dinsert_self k v r
  · rfl

theorem dlookup_cond_insert_ne {α : Type} {k' k : String} (h : k' ≠ k) (c : Prop)
    [Decidable c] (v : α) (r : List (String × α)) :
    dlookup k (if c then dinsert k' v r else r) = dlookup k r := by
  split
  · exact dlookup_dinsert_ne h v r
  · rfl

theorem mem_dinsert {α : Type} {pr : String × α} {k : String} {v : α}
    {l : List (String × α)} (h : pr ∈ dinsert k v l) : pr = (k, v) ∨ pr ∈ l := by
  induction l with
  | nil => simpa [dinsert] using h
  | cons hd tl ih =>
    by_cases h' : hd.1 = k
    · rcases List.mem_cons.mp (by simpa [dinsert, h'] using h) with h1 | h1
      · exact Or.inl h1
      · exact Or.inr (List.mem_cons_of_mem hd h1)
    · rcases List.mem_cons.mp (by simpa [dinsert, h'] using h) with h1 | h1
      · exact Or.inr (h1 ▸ List.mem_cons_self hd tl)
      · rcases ih h1 with h2 | h2
        · exact Or.inl h2
        · exact Or.inr (List.mem_cons_of_mem hd h2)

theorem mem_cond_insert {α : Type} {pr : String × α} {k : String} {c : Prop} [Decidable c]
    {v : α} {r : List (String × α)} (h : pr ∈ (if c then dinsert k v r else r)) :
    pr = (k, v) ∨ pr ∈ r := by
  by_cases hc : c
  · exact mem_dinsert (by simpa [hc] using h)
  · exact Or.inr (by simpa [hc] using h)

/-- C6: the recommendation mapping holds exactly the categories whose
capability entry is false — each of the eleven categories is present
(with its fixed suggestion list) precisely when its capability is
false, every entry's key is one of the eleven category names and every
entry's suggestion list is non-empty — and when every capability is
true the mapping is empty.  The function reads only the capability
record. -/
theorem missing_recommendations_exact (c : MCPCapabilities) :
    dlookup "GPU Monitoring" (MCPServer.get_missing_packages_recommendations c)
      = (if c.gpu_monitoring then none else some ["GPUtil", "psutil"]) ∧
    dlookup "Quantum Random" (MCPServer.get_missing_packages_recommendations c)
      = (if c.quantum_random then none else some ["quantumrandom"]) ∧
    dlookup "Quantum Computing" (MCPServer.get_missing_packages_recommendations c)
      = (if c.quantum_computing then none else some ["qiskit", "qiskit-aer"]) ∧
    dlookup "Image Processing" (MCPServer.get_missing_packages_recommendations c)
      = (if c.image_processing then none else some ["opencv-python", "Pillow"]) ∧
    dlookup "Machine Learning" (MCPServer.get_missing_packages_recommendations c)
      = (if c.machine_learning then none else some ["scikit-learn", "numpy", "pandas"]) ∧
    dlookup "Deep Learning" (MCPServer.get_missing_packages_recommendations c)
      = (if c.deep_learning then none else some ["torch", "tensorflow"]) ∧
    dlookup "Data Analysis" (MCPServer.get_missing_packages_recommendations c)
      = (if c.data_analysis then none else some ["pandas", "numpy", "scipy"]) ∧
    dlookup "Visualization" (MCPServer.get_missing_packages_recommendations c)
      = (if c.visualization then none else some ["matplotlib", "seaborn", "plotly"]) ∧
    dlookup "Profiling" (MCPServer.get_missing_packages_recommendations c)
      = (if c.profiling then none
          else some ["memory-profiler", "line-profiler", "py-spy"]) ∧
    dlookup "Code Quality" (MCPServer.get_missing_packages_recommendations c)
      = (if c.code_quality then none
          else some ["pylint", "black", "isort", "flake8", "bandit"]) ∧
    dlookup "Package Management" (MCPServer.get_missing_packages_recommendations c)
      = (if c.package_management then none else some ["poetry", "pipenv", "pipdeptree"]) ∧
    (∀ pr ∈ MCPServer.get_missing_packages_recommendations c,
      pr.1 ∈ ["GPU Monitoring", "Quantum Random", "Quantum Computing", "Image Processing",
              "Machine Learning", "Deep Learning", "Data Analysis", "Visualization",
              "Profiling", "Code Quality", "Package Management"] ∧ pr.2 ≠ []) ∧
    (c = ⟨true, true, true, true, true, true, true, true, true, true, true⟩ →
      MCPServer.get_missing_packages_recommendations c = []) := by
  refine ⟨?_, ?_, ?_, ?_, ?_, ?_, ?_, ?_, ?_, ?_, ?_, ?_, ?_⟩
  · cases h : c.gpu_monitoring <;>
      simp [MCPServer.get_missing_packages_recommendations, dlookup_cond_insert_ne,
        dlookup_cond_insert_self, dlookup_dinsert_self, dlookup, h]
  · cases h : c.quantum_random <;>
      simp [MCPServer.get_missing_packages_recommendations, dlookup_cond_insert_ne,
        dlookup_cond_insert_self, dlookup_dinsert_self, dlookup, h]
  · cases h : c.quantum_computing <;>
      simp [MCPServer.get_missing_packages_recommendations, dlookup_cond_insert_ne,
        dlookup_cond_insert_self, dlookup_dinsert_self, dlookup, h]
  · cases h : c.image_processing <;>
      simp [MCPServer.get_missing_packages_recommendations, dlookup_cond_insert_ne,
        dlookup_cond_insert_self, dlookup_dinsert_self, dlookup, h]
  · cases h : c.machine_learning <;>
      simp [MCPServer.get_missing_packages_recommendations, dlookup_cond_insert_ne,
        dlookup_cond_insert_self, dlookup_dinsert_self, dlookup, h]
  · cases h : c.deep_learning <;>
      simp [MCPServer.get_missing_packages_recommendations, dlookup_cond_insert_ne,
        dlookup_cond_insert_self, dlookup_dinsert_self, dlookup, h]
  · cases h : c.data_analysis <;>
      simp [MCPServer.get_missing_packages_recommendations, dlookup_cond_insert_ne,
        dlookup_cond_insert_self, dlookup_dinsert_self, dlookup, h]
  · cases h : c.visualization <;>
      simp [MCPServer.get_missing_packages_recommendations, dlookup_cond_insert_ne,
        dlookup_cond_insert_self, dlookup_dinsert_self, dlookup, h]
  · cases h : c.profiling <;>
      simp [MCPServer.get_missing_packages_recommendations, dlookup_cond_insert_ne,
        dlookup_cond_insert_self, dlookup_dinsert_self, dlookup, h]
  · cases h : c.code_quality <;>
      simp [MCPServer.get_missing_packages_recommendations, dlookup_cond_insert_ne,
        dlookup_cond_insert_self, dlookup_dinsert_self, dlookup, h]
  · cases h : c.package_management <;>
      simp [MCPServer.get_missing_packages_recommendations, dlookup_cond_insert_ne,
        dlookup_cond_insert_self, dlookup_dinsert_self, dlookup, h]
  · intro pr hpr
    simp only [MCPServer.get_missing_packages_recommendations] at hpr
    rcases mem_cond_insert hpr with rfl | hpr
    · decide
    rcases mem_cond_insert hpr with rfl | hpr
    · decide
    rcases mem_cond_insert hpr with rfl | hpr
    · decide
    rcases mem_cond_insert hpr with rfl | hpr
    · decide
    rcases mem_cond_insert hpr with rfl | hpr
    · decide
    rcases mem_cond_insert hpr with rfl | hpr
    · decide
    rcases mem_cond_insert hpr with rfl | hpr
    · decide
    rcases mem_cond_insert hpr with rfl | hpr
    · decide
    rcases mem_cond_insert hpr with rfl | hpr
    · decide
    rcases mem_cond_insert hpr with rfl | hpr
    · decide
    rcases mem_cond_insert hpr with rfl | hpr
    · decide
    simp at hpr
  · intro h
    subst h
    decide

/-- Witness for `missing_recommendations_exact`: with every capability
true the mapping is empty, and with every capability false the GPU
Monitoring entry is present with its fixed non-empty suggestion
list. -/
theorem missing_recommendations_exact_witness :
    MCPServer.get_missing_packages_recommendations
        ⟨true, true, true, true, true, true, true, true, true, true, true⟩ = [] ∧
    (("GPU Monitoring", ["GPUtil", "psutil"]).1
        ∈ ["GPU Monitoring", "Quantum Random", "Quantum Computing", "Image Processing",
           "Machine Learning", "Deep Learning", "Data Analysis", "Visualization",
           "Profiling", "Code Quality", "Package Management"] ∧
      ("GPU Monitoring", ["GPUtil", "psutil"]).2 ≠ []) := by
  constructor
  · exact (missing_recommendations_exact
      ⟨true, true, true, true, true, true, true, true, true, true, true⟩).2.2.2.2.2.2.2.2.2.2.2.2
      rfl
  · exact (missing_recommendations_exact
      ⟨false, false, false, false, false, false, false, false, false, false, false⟩).2.2.2.2.2.2.2.2.2.2.2.1
      ("GPU Monitoring", ["GPUtil", "psutil"]) (by decide)

/-- One call to a server method, together with the environment the call
observes. -/
inductive ServerOp where
  | getSystemInfo (env : SysEnv)
  | installPackages (env : PkgEnv) (packages : List String)
  | runCodeQualityCheck (env : ToolEnv) (file_path : String)
  | formatCode (env : ToolEnv) (file_path : String)
  | missingRecommendations

/-- State transition of one server method call.  Each method body
(lines 469–733) computes its result from the environment and
`self.capabilities` and performs no assignment to any attribute of
`self`, so the post-call state is the pre-call state. -/
def applyOp (f : DepFlags) (s : MCPServer) : ServerOp → MCPServer
  | .getSystemInfo env =>
    (MCPServer.get_system_info s f env, s).2
  | .installPackages env packages =>
    (MCPServer.install_missing_packages env packages, s).2
  | .runCodeQualityCheck env file_path =>
    (MCPServer.run_code_quality_check f env file_path, s).2
  | .formatCode env file_path =>
    (MCPServer.format_code f env file_path, s).2
  | .missingRecommendations =>
    (MCPServer.get_missing_packages_recommendations s.capabilities, s).2

theorem applyOp_id (f : DepFlags) (s : MCPServer) (op : ServerOp) : applyOp f s op = s := by
  cases op <;> rfl

/-- C9: the capability snapshot, session identifier and start timestamp
are established once by `__init__` and never mutated: after any
sequence of operations (getSystemInfo, installPackages,
runCodeQualityCheck, formatCode, missingRecommendations) under any
environments, the server state still equals the freshly initialised
state, its capabilities still equal the startup detection result (no
operation re-probes dependencies), and its session id and start
timestamp are unchanged. -/
theorem server_state_immutable (f : DepFlags) (sid start : String) (ops : List ServerOp) :
    ops.foldl (applyOp f) (MCPServer.init f sid start) = MCPServer.init f sid start ∧
    (ops.foldl (applyOp f) (MCPServer.init f sid start)).capabilities
      = MCPServer.detect_capabilities f ∧
    (ops.foldl (applyOp f) (MCPServer.init f sid start)).session_id = sid ∧
    (ops.foldl (applyOp f) (MCPServer.init f sid start)).start_time = start := by
  have hfold : ∀ (l : List ServerOp) (s : MCPServer), l.foldl (applyOp f) s = s := by
    intro l
    induction l with
    | nil => intro s; rfl
    | cons op rest ih =>
      intro s
      rw [List.foldl_cons, applyOp_id, ih]
  exact ⟨hfold ops _, by rw [hfold ops _]; rfl, by rw [hfold ops _]; rfl,
    by rw [hfold ops _]; rfl⟩
